import Mathlib

/-!
Verification development for the movement-traversability query engine of the
Spring RTS engine, shallowly embedded from rts/Sim/MoveTypes/MoveDefHandler.cpp.

Modelling conventions:
* C float values are modelled as exact rationals (and as reals for the one
  trigonometric cost function), C int as Lean Int.
* The externals consumed by the core (terrain sampler, blocking-grid query,
  height map, map dimensions, the raw-move speed threshold from ModInfo) are
  collected in an Env record of abstract functions; claims quantify over it.
* The per-thread temp-number generator (gs->GetMtTempNum) is modelled as a
  counter threaded through the search state: each request returns the counter
  and increments it.
-/

namespace Spring

/-- Truncation of a rational toward zero, the semantics of the C float-to-int
conversions used when converting world positions to grid cells. -/
def qtrunc (q : ℚ) : ℤ := if q < 0 then -⌊-q⌋ else ⌊q⌋

/-- Clamp for rationals; std::clamp(v, lo, hi) for lo <= hi. -/
def qclamp (v lo hi : ℚ) : ℚ := min (max v lo) hi

/-- Integer indicator of a decidable proposition, for the branch-free
arithmetic in the line-walk step function. -/
def ind (p : Prop) [Decidable p] : ℤ := if p then 1 else 0

/-- Stand-in for std::numeric_limits of float max, the initial value of the
running minimum speed modifier.  Claims never depend on its exact value. -/
def floatMax : ℚ := 2 ^ 128

/-- World units per grid square (SQUARE_SIZE in Sim/Misc/GlobalConstants.h,
which is not under src; the engine value is 8 and no claim depends on it). -/
def SQUARE_SIZE : ℚ := 8

/-- Modelled from the spec: SPRING_FOOTPRINT_SCALE, the footprint scale factor
from the constants header missing under src; the spec scenario uses scale 2. -/
def SPRING_FOOTPRINT_SCALE : ℤ := 2

/-- Modelled from the spec: the blocking bitmask bit the walk cares about
(BLOCK_STRUCTURE of CMoveMath, header not under src); only its role as a
designated bit matters, the engine value 8 is used. -/
def BLOCK_STRUCTURE : ℕ := 8

/-- Modelled from the spec: the empty blocking bitmask (BLOCK_NONE). -/
def BLOCK_NONE : ℕ := 0

/-- Modelled from the spec: the numeric value of the INWATER physical-state
bit of CSolidObject (header not under src); any fixed single bit works. -/
def PSTATE_BIT_INWATER : ℕ := 1

/-- Clear the bits of the second mask inside the first (n and not b over
naturals, the effect of clearing a state bit). -/
def nclearBit (n b : ℕ) : ℕ := n ^^^ (n &&& b)

/-- Integer pair, the int2 vector type of the engine. -/
structure int2 where
  x : ℤ
  y : ℤ
  deriving DecidableEq, Repr

/-- Rational triple, modelling the float3 world-position vector. -/
structure Q3 where
  x : ℚ
  y : ℚ
  z : ℚ
  deriving DecidableEq, Repr

/-- MoveDef::SpeedModClass (Tank, KBot, Hover, Ship in declaration order,
per the spec data model; the header is not under src). -/
inductive SpeedModClass where
  | Tank
  | KBot
  | Hover
  | Ship
  deriving DecidableEq, Repr

/-- MoveDef::TerrainClass (Land, Water, Mixed). -/
inductive TerrainClass where
  | Land
  | Water
  | Mixed
  deriving DecidableEq, Repr

/-- Underlying integer value of a speed-mod class. -/
def SpeedModClass.toInt : SpeedModClass → ℤ
  | .Tank => 0
  | .KBot => 1
  | .Hover => 2
  | .Ship => 3

/-- The enum produced by std::clamp(SpeedModClass(v), Tank, Ship): the
integer is clamped to the range 0..3 of valid enumerators. -/
def SpeedModClass.ofClampedInt (v : ℤ) : SpeedModClass :=
  if v ≤ 0 then .Tank
  else if v = 1 then .KBot
  else if v = 2 then .Hover
  else .Ship

/-- Whether the pattern list is a prefix of the other list. -/
def listIsPre : List Char → List Char → Bool
  | [], _ => true
  | _ :: _, [] => false
  | a :: as, b :: bs => a = b && listIsPre as bs

/-- Whether the pattern occurs as a contiguous substring, the semantics of
std::string::find(pat) != npos. -/
def hasSub (pat : List Char) : List Char → Bool
  | [] => listIsPre pat []
  | s :: rest => listIsPre pat (s :: rest) || hasSub pat rest

/-- ParseSpeedModClass: an explicit speedModClass config value (anything other
than the absent-marker -1) is clamped into the enum range; otherwise
name-substring heuristics pick the class. -/
def ParseSpeedModClass (name : List Char) (fieldVal : ℤ) : SpeedModClass :=
  if fieldVal ≠ -1 then
    SpeedModClass.ofClampedInt fieldVal
  else if hasSub "boat".toList name then .Ship
  else if hasSub "ship".toList name then .Ship
  else if hasSub "hover".toList name then .Hover
  else if hasSub "tank".toList name then .Tank
  else .KBot

/-- The six depth-modifier parameters of a MoveDef. -/
structure DMP where
  minHeight : ℚ
  maxHeight : ℚ
  maxScale : ℚ
  quaCoeff : ℚ
  linCoeff : ℚ
  conCoeff : ℚ
  deriving DecidableEq, Repr

/-- The depth-mod parameter defaults installed by the MoveDef default
constructor (lines 167-172). -/
def dmpDefault : DMP :=
  { minHeight := 0, maxHeight := floatMax, maxScale := floatMax,
    quaCoeff := 0, linCoeff := 1 / 10, conCoeff := 1 }

/-- The invariants the MoveDef constructor establishes for the depth-mod
parameters: non-negative coefficients, a valid height range and a max scale
of at least 0.01. -/
def DMPvalid (p : DMP) : Prop :=
  0 ≤ p.minHeight ∧ p.minHeight ≤ p.maxHeight ∧ 1 / 100 ≤ p.maxScale ∧
  0 ≤ p.quaCoeff ∧ 0 ≤ p.linCoeff ∧ 0 ≤ p.conCoeff

/-- MoveDef::GetDepthMod: 1 above -minHeight, 0 below -maxHeight, otherwise
the reciprocal of the clamped quadratic in the depth d = -height. -/
def GetDepthMod (p : DMP) (height : ℚ) : ℚ :=
  if height > -p.minHeight then 1
  else if height < -p.maxHeight then 0
  else
    let d := -height
    1 / qclamp (p.quaCoeff * d * d + p.linCoeff * d + p.conCoeff) (1 / 100) p.maxScale

/-- The configuration input of the MoveDef constructor, restricted to the
fields the verified claims depend on.  Each plain field holds the value
returned by the corresponding LuaTable getter (the getter defaults are
concrete values, so a plain field is faithful); footprintZ is optional
because its getter default is the fetched footprintX value. -/
structure MoveDefCfg where
  name : List Char
  speedModClassField : ℤ
  footprintX : ℤ
  footprintZ : Option ℤ
  minWaterDepth : ℚ
  maxWaterDepth : ℚ
  subMarine : Bool
  dmMinHeight : ℚ
  dmMaxHeight : ℚ
  dmMaxScale : ℚ
  dmQuaCoeff : ℚ
  dmLinCoeff : ℚ
  dmConCoeff : ℚ

/-- The MoveDef fields the verified claims depend on (the slope fields are
modelled separately over the reals, see DegreesToMaxSlope). -/
structure MoveDefRec where
  speedModClass : SpeedModClass
  terrainClass : TerrainClass
  xsize : ℤ
  zsize : ℤ
  xsizeh : ℤ
  zsizeh : ℤ
  depth : ℚ
  depthModParams : DMP
  isSubmarine : Bool
  followGround : Bool

/-- Modelled from the spec: the initial terrainClass value of a fresh MoveDef
(member initializer in the header, which is not under src).  It is
overwritten by the classification chain in every case the claims touch. -/
def dfltTerrainClass : TerrainClass := TerrainClass.Land

/-- The MoveDef(LuaTable) constructor, restricted to the fields of
MoveDefRec: speed class resolution, per-class depth-mod parameters and depth,
the terrain-class derivation chain and the odd-forced footprint. -/
def mkMoveDef (cfg : MoveDefCfg) : MoveDefRec :=
  let smc := ParseSpeedModClass cfg.name cfg.speedModClassField
  let dmp : DMP :=
    if smc = .Tank ∨ smc = .KBot then
      let mh := max 0 cfg.dmMinHeight
      { minHeight := mh,
        maxHeight := max mh cfg.dmMaxHeight,
        maxScale := max (1 / 100) cfg.dmMaxScale,
        quaCoeff := max 0 cfg.dmQuaCoeff,
        linCoeff := max 0 cfg.dmLinCoeff,
        conCoeff := max 0 cfg.dmConCoeff }
    else dmpDefault
  let depth : ℚ := if smc = .Ship then cfg.minWaterDepth else cfg.maxWaterDepth
  let isSubmarine : Bool := if smc = .Ship then cfg.subMarine else false
  let followGround : Bool := smc = .Tank ∨ smc = .KBot
  let tc1 : TerrainClass :=
    if (followGround ∧ cfg.maxWaterDepth ≤ 0) ∨ smc = .Hover then .Land
    else dfltTerrainClass
  let tc2 : TerrainClass :=
    if (smc = .Ship ∧ cfg.minWaterDepth > 0) ∨ (followGround ∧ cfg.minWaterDepth > 0) then .Water
    else tc1
  let tc3 : TerrainClass :=
    if (followGround ∧ cfg.maxWaterDepth > 0) ∨ (smc = .Ship ∧ cfg.minWaterDepth < 0) then .Mixed
    else tc2
  let xsizeDef := max 1 cfg.footprintX
  let zsizeDef := max 1 (cfg.footprintZ.getD xsizeDef)
  let xsizeRaw := xsizeDef * SPRING_FOOTPRINT_SCALE
  let zsizeRaw := zsizeDef * SPRING_FOOTPRINT_SCALE
  let xsize := xsizeRaw - (if xsizeRaw % 2 = 1 then 0 else 1)
  let zsize := zsizeRaw - (if zsizeRaw % 2 = 1 then 0 else 1)
  { speedModClass := smc, terrainClass := tc3,
    xsize := xsize, zsize := zsize, xsizeh := xsize / 2, zsizeh := zsize / 2,
    depth := depth, depthModParams := dmp,
    isSubmarine := isSubmarine, followGround := followGround }

/-- DegreesToMaxSlope: degrees clamped to [0, 60], stretched by 1.5 and
converted to radians; the result is one minus the cosine. -/
noncomputable def DegreesToMaxSlope (degrees : ℝ) : ℝ :=
  1 - Real.cos (min (max degrees 0) 60 * 1.5 * (Real.pi / 180))

/-- The default slopeMod the constructor derives when the config supplies
none: 4 / (maxSlope + 0.001). -/
noncomputable def defaultSlopeMod (maxSlope : ℝ) : ℝ := 4 / (maxSlope + 1 / 1000)

/-- The externals DoRawSearch and the range checks consume: map dimensions,
the terrain cost sampler (CMoveMath::GetPosSpeedMod, specialized to the
profile and the normalized 2D test direction both call sites share), the
blocking-grid query (the RangeIsBlocked variants, which per the spec differ
only in how the epoch is supplied; the result depends on the queried
rectangle and the position and height the virtual collider carries), the
synced max-height map, and ModInfo::pfRawMoveSpeedThreshold. -/
structure Env where
  mapx : ℤ
  mapy : ℤ
  posSpeedMod : ℤ → ℤ → ℚ
  rangeBlocked : ℤ → ℤ → ℤ → ℤ → Q3 → ℚ → ℕ
  maxHeightAt : ℤ → ℤ → ℚ
  speedModThreshold : ℚ

/-- The disposable virtual collider proxy of DoRawSearch: position, height
and the two state bitsets touched by the water-transition tracking. -/
structure VirtCol where
  pos : Q3
  height : ℚ
  physBits : ℕ
  collBits : ℕ
  deriving DecidableEq, Repr

/-- The solid-object collider as consumed by DoRawSearch: its position and
height (copied onto the proxy) and its own MoveDef (consulted for the
submersibility test). -/
structure Collider where
  pos : Q3
  height : ℚ
  moveDef : MoveDefRec

/-- One Bresenham-style cursor step of the bidirectional walk (the StepFunc
lambda): the cursor advances on each axis according to the sign of the error
term, which is itself updated from the doubled cell deltas. -/
def stepFunc (dir dif pos err : int2) : int2 × int2 :=
  (⟨pos.x + dir.x * ind (0 ≤ err.y), pos.y + dir.y * ind (err.y ≤ 0)⟩,
   ⟨err.x - dif.y * ind (0 ≤ err.y) + dif.x * ind (err.y ≤ 0), err.y⟩)

/-- The loop of the walkPath lambda: while both step counters are positive,
test the forward then the reverse cursor cell (short-circuiting on failure),
stop once the cursors are adjacent on both axes, otherwise advance both
cursors, charge an extra counter decrement when a cursor crossed a vertex
exactly, and roll the error terms.  The fuel argument only bounds the
recursion; callers pass enough for the counters to run out first. -/
def walkLoopF {σ : Type} (f : σ → int2 → σ × Bool) (dif fdir rdir : int2) :
    Nat → int2 → int2 → int2 → int2 → int2 → σ → σ × Bool
  | 0, _, _, _, _, _, s => (s, true)
  | fuel + 1, ctr, fe, re, fw, rv, s =>
    if 0 < ctr.x ∧ 0 < ctr.y then
      let a := f s fw
      if a.2 then
        let b := f a.1 rv
        if b.2 then
          if (fw.x - rv.x).natAbs ≤ 1 ∧ (fw.y - rv.y).natAbs ≤ 1 then
            (b.1, true)
          else
            walkLoopF f dif fdir rdir fuel
              ⟨ctr.x - 1 - ind (fe.y = 0), ctr.y - 1 - ind (re.y = 0)⟩
              ⟨(stepFunc fdir dif fw fe).2.x, (stepFunc fdir dif fw fe).2.x⟩
              ⟨(stepFunc rdir dif rv re).2.x, (stepFunc rdir dif rv re).2.x⟩
              (stepFunc fdir dif fw fe).1
              (stepFunc rdir dif rv re).1
              b.1
        else (b.1, false)
      else (a.1, false)
    else (s, true)

/-- The walkPath lambda of DoRawSearch: set up the mirrored step directions,
the shared counter and error seeds from the absolute block deltas, and run
the meet-in-the-middle loop from both endpoint blocks. -/
def walkPath {σ : Type} (f : σ → int2 → σ × Bool) (sB eB : int2) (s : σ) : σ × Bool :=
  let dBx : ℤ := (eB.x - sB.x).natAbs
  let dBy : ℤ := (eB.y - sB.y).natAbs
  let fdir : int2 := ⟨(ind (eB.x > sB.x)) * 2 - 1, (ind (eB.y > sB.y)) * 2 - 1⟩
  let rdir : int2 := ⟨(ind (sB.x > eB.x)) * 2 - 1, (ind (sB.y > eB.y)) * 2 - 1⟩
  walkLoopF f ⟨dBx * 2, dBy * 2⟩ fdir rdir
    ((dBx + dBy).toNat + 2)
    ⟨dBx + dBy + 1, dBx + dBy + 1⟩
    ⟨dBx - dBy, dBx - dBy⟩
    ⟨dBx - dBy, dBx - dBy⟩
    sB eB s

/-- A test function that only records the visited cells and never fails,
used to reason about the cell-visitation set of the walk. -/
def collectF (l : List int2) (c : int2) : List int2 × Bool := (l ++ [c], true)

/-- The ordered list of cells the bidirectional walk tests when no test
fails, from start block to end block. -/
def visitedCells (sB eB : int2) : List int2 := (walkPath collectF sB eB []).1

/-- The start and end grid blocks DoRawSearch derives from the world
positions: the end position (only) is biased by one world unit against the
direction of travel on each axis whose coordinates differ, to pick the
appropriate block when it sits exactly on a cell boundary. -/
def rawSearchBlocks (sP eP : Q3) : int2 × int2 :=
  let upDir : ℚ := if sP.z = eP.z then 0 else 1 - (if sP.z < eP.z then (1 : ℚ) else 0) * 2
  let rightDir : ℚ := if sP.x = eP.x then 0 else 1 - (if sP.x < eP.x then (1 : ℚ) else 0) * 2
  (⟨qtrunc (sP.x / SQUARE_SIZE), qtrunc (sP.z / SQUARE_SIZE)⟩,
   ⟨qtrunc ((eP.x + rightDir) / SQUARE_SIZE), qtrunc ((eP.z + upDir) / SQUARE_SIZE)⟩)

/-- The cells the DoRawSearch walk visits for a pair of world positions. -/
def rawSearchVisitedCells (sP eP : Q3) : List int2 :=
  visitedCells (rawSearchBlocks sP eP).1 (rawSearchBlocks sP eP).2

/-- The terrain test lambda of DoRawSearch: off-map cells pass unchanged;
on-map cells fold their speed modifier into the running minimum and fail the
walk when it is not above the configured threshold. -/
def terrTest (env : Env) (minSpeedMod : ℚ) (c : int2) : ℚ × Bool :=
  if c.x ≥ env.mapx ∨ c.x < 0 ∨ c.y ≥ env.mapy ∨ c.y < 0 then
    (minSpeedMod, true)
  else
    let sm := env.posSpeedMod c.x c.y
    (min minSpeedMod sm, decide (sm > env.speedModThreshold))

/-- The state threaded through the object-testing walk: the last written
blocking bitmask, the current epoch and the generator counter, the virtual
collider and the remembered water-state flags, plus the ordered log of
blocking-query results (the sequence of RangeIsBlockedMt return values). -/
structure ObjSt where
  maxBlockBit : ℕ
  tempNum : ℕ
  nextTemp : ℕ
  vo : VirtCol
  lastPosY : ℚ
  lastInWater : Bool
  lastUnderWater : Bool
  objLog : List ℕ
  deriving Repr

/-- The object test lambda of DoRawSearch: expand the cell by the clamped
half footprint (unless center-only), update the vertical position of the
virtual collider from the max-height map for submersibles, take a fresh epoch when
the stored underwater flag differs (the source statement that should update
that flag, line 423, is a comparison without effect and is mirrored as such),
toggle the in-water bookkeeping (setting the INWATER physical-state bit on
entering water but clearing a collidable-state bit on leaving, as the source
does), then query the blocking grid and overwrite the aggregated bitmask. -/
def objTest (env : Env) (md : MoveDefRec) (centerOnly : Bool) (isSubmersible : Bool)
    (s : ObjSt) (c : int2) : ObjSt × Bool :=
  let k : ℤ := if centerOnly then 0 else 1
  let xmin := max (c.x - md.xsizeh * k) 0
  let zmin := max (c.y - md.zsizeh * k) 0
  let xmax := min (c.x + md.xsizeh * k) (env.mapx - 1)
  let zmax := min (c.y + md.zsizeh * k) (env.mapy - 1)
  let s1 :=
    if isSubmersible then
      let newY := env.maxHeightAt c.x c.y
      let vo1 := { s.vo with pos := { s.vo.pos with y := newY } }
      if s.lastPosY ≠ newY then
        let underWater := decide (newY + vo1.height < 0)
        let inWater := decide (newY < 0)
        let s2 :=
          if s.lastUnderWater ≠ underWater then
            { s with tempNum := s.nextTemp, nextTemp := s.nextTemp + 1 }
          else s
        let s3 :=
          if s2.lastInWater ≠ inWater then
            if inWater then
              { s2 with vo := { vo1 with physBits := vo1.physBits ||| PSTATE_BIT_INWATER },
                        lastInWater := inWater }
            else
              { s2 with vo := { vo1 with collBits := nclearBit vo1.collBits PSTATE_BIT_INWATER },
                        lastInWater := inWater }
          else { s2 with vo := vo1 }
        { s3 with lastPosY := newY }
      else { s with vo := vo1 }
    else s
  let bits := env.rangeBlocked xmin xmax zmin zmax s1.vo.pos s1.vo.height
  ({ s1 with maxBlockBit := bits, objLog := s1.objLog ++ [bits] },
   decide (bits &&& BLOCK_STRUCTURE = 0))

/-- The outputs of DoRawSearch, together with the observable state of the
object walk: the boolean verdict, the aggregated minimum speed modifier and
blocking bitmask, the blocking-query log, the temp-number generator counter
after the call, and the final state bits of the virtual collider. -/
structure RawOut where
  ret : Bool
  minSpeedMod : ℚ
  maxBlockBit : ℕ
  objLog : List ℕ
  nextTemp : ℕ
  voPhysBits : ℕ
  voCollBits : ℕ
  deriving Repr

/-- MoveDef::DoRawSearch: derive the endpoint blocks (biasing the end
position off cell boundaries toward the travel direction), run the terrain
walk when requested, then the object walk when requested and still feasible,
seeding one fresh epoch, the virtual collider copied from the real collider
(with its INWATER physical bit when starting below the waterline), and the
remembered water flags; temp0 is the per-thread temp-number counter on
entry. -/
def DoRawSearchFull (env : Env) (md : MoveDefRec) (collider : Collider)
    (sP eP : Q3) (testTerrain testObjects centerOnly : Bool) (temp0 : ℕ) : RawOut :=
  let sB := (rawSearchBlocks sP eP).1
  let eB := (rawSearchBlocks sP eP).2
  let tres := if testTerrain then walkPath (terrTest env) sB eB floatMax
              else (floatMax, true)
  let minSpeedMod := tres.1
  let retT := tres.2
  if testObjects && retT then
    let lastInWater := decide (collider.pos.y < 0)
    let vo0 : VirtCol :=
      { pos := collider.pos, height := collider.height,
        physBits := if lastInWater then PSTATE_BIT_INWATER else 0, collBits := 0 }
    let cmd := collider.moveDef
    let isSub : Bool := cmd.isSubmarine || (cmd.followGround && decide (cmd.depth > collider.height))
    let s0 : ObjSt :=
      { maxBlockBit := BLOCK_NONE, tempNum := temp0, nextTemp := temp0 + 1,
        vo := vo0, lastPosY := collider.pos.y,
        lastInWater := lastInWater,
        lastUnderWater := decide (collider.pos.y + collider.height < 0),
        objLog := [] }
    let ores := walkPath (objTest env md centerOnly isSub) sB eB s0
    { ret := ores.2, minSpeedMod := minSpeedMod, maxBlockBit := ores.1.maxBlockBit,
      objLog := ores.1.objLog, nextTemp := ores.1.nextTemp,
      voPhysBits := ores.1.vo.physBits, voCollBits := ores.1.vo.collBits }
  else
    { ret := retT, minSpeedMod := minSpeedMod, maxBlockBit := BLOCK_NONE,
      objLog := [], nextTemp := temp0, voPhysBits := 0, voCollBits := 0 }

/-- The boolean verdict of MoveDef::DoRawSearch. -/
def DoRawSearch (env : Env) (md : MoveDefRec) (collider : Collider)
    (sP eP : Q3) (testTerrain testObjects centerOnly : Bool) (temp0 : ℕ) : Bool :=
  (DoRawSearchFull env md collider sP eP testTerrain testObjects centerOnly temp0).ret

/-- The closed integer interval lo..hi as a list. -/
def intRange (lo hi : ℤ) : List ℤ := (List.range (hi + 1 - lo).toNat).map (fun i => lo + i)

/-- The outputs of MoveDef::TestMoveSquareRange. -/
structure TMSROut where
  ret : Bool
  minSpeedMod : ℚ
  maxBlockBit : ℕ
  deriving Repr

/-- MoveDef::TestMoveSquareRange: expand the world-space box by the half
footprint (unless center-only), scan every cell row-major accumulating the
minimum speed modifier and short-circuiting on a non-positive one, then
issue a single blocking query over the whole box. -/
def TestMoveSquareRange (env : Env) (md : MoveDefRec) (collider : Collider)
    (rangeMins rangeMaxs : Q3) (testTerrain testObjects centerOnly : Bool) : TMSROut :=
  let k : ℤ := if centerOnly then 0 else 1
  let xmin := qtrunc (rangeMins.x / SQUARE_SIZE) - md.xsizeh * k
  let zmin := qtrunc (rangeMins.z / SQUARE_SIZE) - md.zsizeh * k
  let xmax := qtrunc (rangeMaxs.x / SQUARE_SIZE) + md.xsizeh * k
  let zmax := qtrunc (rangeMaxs.z / SQUARE_SIZE) + md.zsizeh * k
  let cells := (intRange zmin zmax).flatMap (fun z => (intRange xmin xmax).map (fun x => int2.mk x z))
  let tres :=
    if testTerrain then
      cells.foldl (fun (p : ℚ × Bool) c =>
        if p.2 then
          let sm := env.posSpeedMod c.x c.y
          (min p.1 sm, decide (sm > 0))
        else p) (floatMax, true)
    else (floatMax, true)
  if testObjects && tres.2 then
    let bits := env.rangeBlocked xmin xmax zmin zmax collider.pos collider.height
    { ret := decide (bits &&& BLOCK_STRUCTURE = 0), minSpeedMod := tres.1, maxBlockBit := bits }
  else
    { ret := tres.2, minSpeedMod := tres.1, maxBlockBit := BLOCK_NONE }

/-- MoveDef::TestMovePositionForObjects: one blocking query over the full
half-footprint box around the position, with a caller-supplied epoch (the
epoch does not influence the query result). -/
def TestMovePositionForObjects (env : Env) (md : MoveDefRec) (collider : Collider)
    (pos : Q3) : Bool :=
  let xmin := qtrunc (pos.x / SQUARE_SIZE) - md.xsizeh
  let zmin := qtrunc (pos.z / SQUARE_SIZE) - md.zsizeh
  let xmax := qtrunc (pos.x / SQUARE_SIZE) + md.xsizeh
  let zmax := qtrunc (pos.z / SQUARE_SIZE) + md.zsizeh
  decide (env.rangeBlocked xmin xmax zmin zmax collider.pos collider.height &&& BLOCK_STRUCTURE = 0)

/-! Concrete fixtures used by counterexamples, failing-input evaluations and
witnesses. -/

/-- A minimal movement profile record: single-cell footprint, no
submersibility. -/
def mdZero : MoveDefRec :=
  { speedModClass := .Tank, terrainClass := .Land, xsize := 1, zsize := 1,
    xsizeh := 0, zsizeh := 0, depth := 0, depthModParams := dmpDefault,
    isSubmarine := false, followGround := false }

/-- The minimal profile marked as a submarine. -/
def mdSubT : MoveDefRec := { mdZero with isSubmarine := true }

/-- A collider starting above water (pos.y = 10, height 5) whose own profile
is submersible. -/
def colC2 : Collider := { pos := ⟨0, 10, 0⟩, height := 5, moveDef := mdSubT }

/-- Environment for the epoch-bug run: along the walked row the max heights
are 10, -300, -400, -200 at x = 0, 1, 2, 3, so the virtual collider dives
under water at the second visited cell and stays under. -/
def envC2a : Env :=
  { mapx := 4, mapy := 1, posSpeedMod := fun _ _ => 1,
    rangeBlocked := fun _ _ _ _ _ _ => 0,
    maxHeightAt := fun x _ =>
      if x = 0 then 10 else if x = 3 then -200 else if x = 1 then -300 else -400,
    speedModThreshold := 0 }

/-- Same as envC2a except the last visited cell (x = 2) has height 20, so the
virtual collider leaves the water there. -/
def envC2b : Env :=
  { envC2a with maxHeightAt := fun x _ =>
      if x = 0 then 10 else if x = 3 then -200 else if x = 1 then -300 else 20 }

/-- Environment for the last-write-wins observation: the blocking query
returns mask 1 for the rectangle at x = 0 and mask 2 elsewhere (neither
carries the STRUCTURE bit, so the walk completes). -/
def envC4 : Env :=
  { mapx := 4, mapy := 1, posSpeedMod := fun _ _ => 1,
    rangeBlocked := fun xmin _ _ _ _ _ => if xmin = 0 then 1 else 2,
    maxHeightAt := fun _ _ => 0, speedModThreshold := 0 }

/-- A non-submersible collider for the object-walk fixtures. -/
def colC4 : Collider := { pos := ⟨0, 10, 0⟩, height := 5, moveDef := mdZero }

/-- Environment with a positive raw-move speed threshold (1/2) and a terrain
speed modifier of 1/4 everywhere: positive, hence fine for the range check,
but below the raw-search threshold. -/
def envC3 : Env :=
  { mapx := 8, mapy := 8, posSpeedMod := fun _ _ => 1 / 4,
    rangeBlocked := fun _ _ _ _ _ _ => 0,
    maxHeightAt := fun _ _ => 0, speedModThreshold := 1 / 2 }

/-- envC3 with the threshold at zero, satisfying the hypotheses of the
amended claim. -/
def envC3w : Env := { envC3 with speedModThreshold := 0 }

/-- A collider whose profile is not submersible, positioned at the test
point. -/
def colC3 : Collider := { pos := ⟨12, 0, 12⟩, height := 0, moveDef := mdZero }

/-- World position in the interior of cell (1, 1). -/
def posC3 : Q3 := ⟨12, 0, 12⟩

/-- Map-edge environment for the off-map witness. -/
def envC6 : Env :=
  { mapx := 4, mapy := 4, posSpeedMod := fun _ _ => 1,
    rangeBlocked := fun _ _ _ _ _ _ => 0,
    maxHeightAt := fun _ _ => 0, speedModThreshold := 0 }

/-- Config with an even scaled footprint: footprintX = 2, scale 2, raw size 4
forced down to 3. -/
def cfgC7 : MoveDefCfg :=
  { name := [], speedModClassField := 0, footprintX := 2, footprintZ := none,
    minWaterDepth := 0, maxWaterDepth := 0, subMarine := false,
    dmMinHeight := 0, dmMaxHeight := 0, dmMaxScale := 0,
    dmQuaCoeff := 0, dmLinCoeff := 0, dmConCoeff := 0 }

/-- The scenario config of the spec: explicit Ship class, minWaterDepth = 5,
maxWaterDepth = -5. -/
def cfgC8 : MoveDefCfg :=
  { name := [], speedModClassField := 3, footprintX := 1, footprintZ := none,
    minWaterDepth := 5, maxWaterDepth := -5, subMarine := false,
    dmMinHeight := 0, dmMaxHeight := 0, dmMaxScale := 0,
    dmQuaCoeff := 0, dmLinCoeff := 0, dmConCoeff := 0 }

/-- The amended scenario: an amphibious ship has a negative minWaterDepth. -/
def cfgC8n : MoveDefCfg := { cfgC8 with minWaterDepth := -5 }

/-- Depth-mod parameters (valid per construction) whose cost polynomial is
not 1 at depth maxHeight: a = 0, b = 1/10, c = 1, heights 0..10, scale cap
100. -/
def dmpC5 : DMP :=
  { minHeight := 0, maxHeight := 10, maxScale := 100,
    quaCoeff := 0, linCoeff := 1 / 10, conCoeff := 1 }

/-- Valid depth-mod parameters whose cost polynomial is not 1 at depth
minHeight = 2 (c = 2). -/
def dmpC5b : DMP :=
  { minHeight := 2, maxHeight := 10, maxScale := 100,
    quaCoeff := 0, linCoeff := 1 / 10, conCoeff := 2 }

/-- Valid depth-mod parameters for the piecewise/monotonicity witness. -/
def dmpC5w : DMP :=
  { minHeight := 1, maxHeight := 10, maxScale := 100,
    quaCoeff := 0, linCoeff := 1 / 10, conCoeff := 1 }

/-! Theorems. -/

/-- An even raw footprint size (a multiple of the scale 2) is forced odd by
subtracting one. -/
theorem oddForced (k : ℤ) : Odd (k * 2 - (if (k * 2) % 2 = 1 then 0 else 1)) := by
  rw [if_neg (by omega), Int.odd_iff]
  omega

/-- C7: for every profile constructed from configuration, xsize and zsize are
odd (an even scaled footprint is forced odd by subtracting 1), regardless of
the configured footprint values; footprintX = 2 with scale 2 gives raw 4,
forced to 3. -/
theorem moveDef_footprint_odd :
    (∀ cfg : MoveDefCfg, Odd (mkMoveDef cfg).xsize ∧ Odd (mkMoveDef cfg).zsize)
    ∧ (mkMoveDef cfgC7).xsize = 3 := by
  refine ⟨fun cfg => ?_, by with_unfolding_all decide⟩
  simp only [mkMoveDef, SPRING_FOOTPRINT_SCALE]
  exact ⟨oddForced _, oddForced _⟩

/-- C8 counterexample: the spec scenario (Ship, minWaterDepth = 5,
maxWaterDepth = -5) does not produce terrainClass Mixed. -/
theorem shipTerrainClass_cex : (mkMoveDef cfgC8).terrainClass ≠ TerrainClass.Mixed := by
  with_unfolding_all decide

/-- C8 amended: a Ship with positive minWaterDepth is classified Water; the
amphibious-ship case the scenario intends requires a negative minWaterDepth,
which yields Mixed. -/
theorem shipTerrainClass_amended :
    (mkMoveDef cfgC8).terrainClass = TerrainClass.Water
    ∧ (mkMoveDef cfgC8n).terrainClass = TerrainClass.Mixed := by
  with_unfolding_all decide

/-- C10: an explicit speedModClass config value (anything other than the
absent marker -1) yields the value clamped into the enum range Tank..Ship,
independently of the name heuristics. -/
theorem parseSpeedModClass_explicit (name : List Char) (v : ℤ) (hv : v ≠ -1) :
    ParseSpeedModClass name v = SpeedModClass.ofClampedInt v
    ∧ (ParseSpeedModClass name v).toInt = max 0 (min v 3) := by
  have h1 : ParseSpeedModClass name v = SpeedModClass.ofClampedInt v := by
    unfold ParseSpeedModClass
    rw [if_pos hv]
  refine ⟨h1, ?_⟩
  rw [h1]
  unfold SpeedModClass.ofClampedInt
  split_ifs with h2 h3 h4 <;> simp only [SpeedModClass.toInt] <;> omega

/-- C10 witness: an out-of-range explicit value 7 on a name that would
heuristically be Hover still yields Ship (clamped to 3). -/
theorem parseSpeedModClass_explicit_witness :
    (7 : ℤ) ≠ -1
    ∧ (ParseSpeedModClass ("hover".toList) 7 = SpeedModClass.ofClampedInt 7
       ∧ (ParseSpeedModClass ("hover".toList) 7).toInt = max 0 (min 7 3)) :=
  ⟨by decide, parseSpeedModClass_explicit ("hover".toList) 7 (by decide)⟩

/-- C6: in the terrain-testing walk of DoRawSearch, a visited cell outside map
bounds passes the test and leaves the accumulated minimum speed modifier
unchanged. -/
theorem terrainTest_offmap_passable (env : Env) (st : ℚ) (c : int2)
    (hoff : c.x ≥ env.mapx ∨ c.x < 0 ∨ c.y ≥ env.mapy ∨ c.y < 0) :
    terrTest env st c = (st, true) := by
  unfold terrTest
  rw [if_pos hoff]

/-- C6 witness: cell (5, 0) on a 4-by-4 map is skipped with the accumulator
untouched. -/
theorem terrainTest_offmap_passable_witness :
    ((5 : ℤ) ≥ envC6.mapx ∨ (5 : ℤ) < 0 ∨ (0 : ℤ) ≥ envC6.mapy ∨ (0 : ℤ) < 0)
    ∧ terrTest envC6 1 ⟨5, 0⟩ = (1, true) :=
  ⟨by with_unfolding_all decide,
   terrainTest_offmap_passable envC6 1 ⟨5, 0⟩ (by with_unfolding_all decide)⟩

/-- C2: evaluating the object walk of DoRawSearch at its failing inputs.
The walk visits cells (0,0), (3,0), (1,0), (2,0) in that order.  Under
envC2a the virtual collider is above water at the first visited cell and
under water at the three later ones: exactly one underwater toggle between
consecutive visited cells, yet the final generator counter is 4 (the initial
session epoch plus three in-walk refreshes), because the stored underwater
flag is never updated (source line 423 is a comparison, not an assignment).
Under envC2b the collider leaves the water at the last visited cell, but the
INWATER physical-state bit is still set at the end (the code clears a
collidable-state bit instead), and no epoch refresh happens for that actual
toggle. -/
theorem rawSearch_submersible_epoch_bug :
    rawSearchVisitedCells ⟨0, 0, 0⟩ ⟨25, 0, 0⟩ = [⟨0, 0⟩, ⟨3, 0⟩, ⟨1, 0⟩, ⟨2, 0⟩]
    ∧ (DoRawSearchFull envC2a mdZero colC2 ⟨0, 0, 0⟩ ⟨25, 0, 0⟩ false true false 0).nextTemp = 4
    ∧ (DoRawSearchFull envC2b mdZero colC2 ⟨0, 0, 0⟩ ⟨25, 0, 0⟩ false true false 0).nextTemp = 3
    ∧ (DoRawSearchFull envC2b mdZero colC2 ⟨0, 0, 0⟩ ⟨25, 0, 0⟩ false true false 0).voPhysBits = 1
    ∧ (DoRawSearchFull envC2b mdZero colC2 ⟨0, 0, 0⟩ ⟨25, 0, 0⟩ false true false 0).voCollBits = 0
    ∧ (DoRawSearchFull envC2b mdZero colC2 ⟨0, 0, 0⟩ ⟨25, 0, 0⟩ false true false 0).ret = true := by
  with_unfolding_all decide

/-- C5 counterexample: with valid constructor-produced parameters,
GetDepthMod is not 0 at exactly -maxHeight (dmpC5: it is 1/2 there) and not
1 at exactly -minHeight (dmpC5b: it is 5/11 there). -/
theorem getDepthMod_boundary_cex :
    DMPvalid dmpC5 ∧ DMPvalid dmpC5b
    ∧ GetDepthMod dmpC5 (-dmpC5.maxHeight) ≠ 0
    ∧ GetDepthMod dmpC5b (-dmpC5b.minHeight) ≠ 1 := by
  unfold DMPvalid
  with_unfolding_all decide

/-- The clamped cost polynomial is strictly positive for valid parameters. -/
theorem qclamp_cost_pos (p : DMP) (hscale : 1 / 100 ≤ p.maxScale) (v : ℚ) :
    0 < qclamp v (1 / 100) p.maxScale := by
  unfold qclamp
  exact lt_min (lt_of_lt_of_le (by norm_num) (le_max_right _ _))
    (lt_of_lt_of_le (by norm_num) hscale)

/-- GetDepthMod never returns a negative value for valid parameters. -/
theorem getDepthMod_nonneg (p : DMP) (hscale : 1 / 100 ≤ p.maxScale) (h : ℚ) :
    0 ≤ GetDepthMod p h := by
  unfold GetDepthMod
  split_ifs with hA hB
  · norm_num
  · exact le_refl 0
  · exact le_of_lt (div_pos one_pos (qclamp_cost_pos p hscale _))

/-- C5 amended: for valid constructor-produced parameters, GetDepthMod is 1
strictly above -minHeight, 0 strictly below -maxHeight, equals the
reciprocal of the clamped quadratic on the closed band in between (so the
band endpoints take the value of the formula, not necessarily 1 or 0), and is
monotonically non-increasing as the height decreases at or below
-minHeight. -/
theorem getDepthMod_piecewise_mono (p : DMP) (hp : DMPvalid p) :
    (∀ h : ℚ, -p.minHeight < h → GetDepthMod p h = 1)
    ∧ (∀ h : ℚ, h < -p.maxHeight → GetDepthMod p h = 0)
    ∧ (∀ h : ℚ, -p.maxHeight ≤ h → h ≤ -p.minHeight →
        GetDepthMod p h
          = 1 / qclamp (p.quaCoeff * -h * -h + p.linCoeff * -h + p.conCoeff) (1 / 100) p.maxScale)
    ∧ (∀ h1 h2 : ℚ, h1 ≤ h2 → h2 ≤ -p.minHeight → GetDepthMod p h1 ≤ GetDepthMod p h2) := by
  obtain ⟨hmin0, hrange, hscale, hqua, hlin, hcon⟩ := hp
  have hone : ∀ h : ℚ, -p.minHeight < h → GetDepthMod p h = 1 := by
    intro h hh
    unfold GetDepthMod
    rw [if_pos hh]
  have hzero : ∀ h : ℚ, h < -p.maxHeight → GetDepthMod p h = 0 := by
    intro h hh
    unfold GetDepthMod
    rw [if_neg (not_lt.mpr (by linarith)), if_pos hh]
  have hmid : ∀ h : ℚ, -p.maxHeight ≤ h → h ≤ -p.minHeight →
      GetDepthMod p h
        = 1 / qclamp (p.quaCoeff * -h * -h + p.linCoeff * -h + p.conCoeff) (1 / 100) p.maxScale := by
    intro h h1 h2
    unfold GetDepthMod
    rw [if_neg (not_lt.mpr h2), if_neg (not_lt.mpr h1)]
  refine ⟨hone, hzero, hmid, ?_⟩
  intro h1 h2 h12 h2le
  by_cases hcase : h1 < -p.maxHeight
  · rw [hzero h1 hcase]
    exact getDepthMod_nonneg p hscale h2
  · push_neg at hcase
    have h1le : h1 ≤ -p.minHeight := le_trans h12 h2le
    have hc2 : -p.maxHeight ≤ h2 := le_trans hcase h12
    rw [hmid h1 hcase h1le, hmid h2 hc2 h2le]
    have hd : -h2 ≤ -h1 := neg_le_neg h12
    have hd2 : 0 ≤ -h2 := by linarith
    have hsq : -h2 * -h2 ≤ -h1 * -h1 :=
      mul_le_mul hd hd hd2 (le_trans hd2 hd)
    have hf : p.quaCoeff * -h2 * -h2 + p.linCoeff * -h2 + p.conCoeff
        ≤ p.quaCoeff * -h1 * -h1 + p.linCoeff * -h1 + p.conCoeff := by
      nlinarith [mul_le_mul_of_nonneg_left hsq hqua, mul_le_mul_of_nonneg_left hd hlin]
    have hclamp : qclamp (p.quaCoeff * -h2 * -h2 + p.linCoeff * -h2 + p.conCoeff) (1 / 100) p.maxScale
        ≤ qclamp (p.quaCoeff * -h1 * -h1 + p.linCoeff * -h1 + p.conCoeff) (1 / 100) p.maxScale := by
      unfold qclamp
      exact min_le_min (max_le_max hf le_rfl) le_rfl
    exact one_div_le_one_div_of_le (qclamp_cost_pos p hscale _) hclamp

/-- C5 witness: dmpC5w is valid and the three regimes evaluate as the
amended claim states. -/
theorem getDepthMod_piecewise_mono_witness :
    DMPvalid dmpC5w
    ∧ GetDepthMod dmpC5w 5 = 1
    ∧ GetDepthMod dmpC5w (-20) = 0
    ∧ GetDepthMod dmpC5w (-8) ≤ GetDepthMod dmpC5w (-6) := by
  have hv : DMPvalid dmpC5w := by
    unfold DMPvalid
    with_unfolding_all decide
  refine ⟨hv, ?_, ?_, ?_⟩
  · exact (getDepthMod_piecewise_mono dmpC5w hv).1 5 (by with_unfolding_all decide)
  · exact (getDepthMod_piecewise_mono dmpC5w hv).2.1 (-20) (by with_unfolding_all decide)
  · exact (getDepthMod_piecewise_mono dmpC5w hv).2.2.2 (-8) (-6)
      (by with_unfolding_all decide) (by with_unfolding_all decide)

/-- DegreesToMaxSlope at 60 degrees: the clamped angle stretched by 1.5 is
90 degrees, whose cosine vanishes. -/
theorem degreesToMaxSlope_at_60 : DegreesToMaxSlope 60 = 1 := by
  unfold DegreesToMaxSlope
  have h1 : min (max (60 : ℝ) 0) 60 = 60 := by norm_num
  rw [h1]
  have h2 : (60 : ℝ) * 1.5 * (Real.pi / 180) = Real.pi / 2 := by ring
  rw [h2, Real.cos_pi_div_two]
  norm_num

/-- C9 counterexample: the derived default slopeMod at maxSlope
DegreesToMaxSlope(60) is not 4. -/
theorem slopeMod_default_cex : defaultSlopeMod (DegreesToMaxSlope 60) ≠ 4 := by
  rw [degreesToMaxSlope_at_60]
  unfold defaultSlopeMod
  norm_num

/-- C9 amended: DegreesToMaxSlope(60) = 1 - cos(90 degrees) = 1, and the
derived default slopeMod 4 / (maxSlope + 0.001) is then 4000/1001 (about
3.996), not 4. -/
theorem slopeMod_scenario_amended :
    DegreesToMaxSlope 60 = 1
    ∧ defaultSlopeMod (DegreesToMaxSlope 60) = 4000 / 1001 := by
  refine ⟨degreesToMaxSlope_at_60, ?_⟩
  rw [degreesToMaxSlope_at_60]
  unfold defaultSlopeMod
  norm_num

/-- A property preserved by the test function is preserved by the whole
bidirectional loop. -/
theorem walkLoopF_inv {σ : Type} (P : σ → Prop) (f : σ → int2 → σ × Bool)
    (hf : ∀ s c, P s → P (f s c).1) (dif fdir rdir : int2) :
    ∀ (fuel : Nat) (ctr fe re fw rv : int2) (s : σ), P s →
      P (walkLoopF f dif fdir rdir fuel ctr fe re fw rv s).1 := by
  intro fuel
  induction fuel with
  | zero =>
    intro ctr fe re fw rv s hs
    simpa [walkLoopF] using hs
  | succ n ih =>
    intro ctr fe re fw rv s hs
    simp only [walkLoopF]
    split_ifs with h1 h2 h3 h4
    · exact hf _ _ (hf _ _ hs)
    · exact ih _ _ _ _ _ _ (hf _ _ (hf _ _ hs))
    · exact hf _ _ (hf _ _ hs)
    · exact hf _ _ hs
    · exact hs

/-- A property preserved by the test function is preserved by walkPath. -/
theorem walkPath_inv {σ : Type} (P : σ → Prop) (f : σ → int2 → σ × Bool)
    (hf : ∀ s c, P s → P (f s c).1) (sB eB : int2) (s : σ) (hs : P s) :
    P (walkPath f sB eB s).1 := by
  unfold walkPath
  exact walkLoopF_inv P f hf _ _ _ _ _ _ _ _ _ _ hs

/-- Absolute difference is symmetric. -/
theorem natAbsSubComm (a b : ℤ) : (a - b).natAbs = (b - a).natAbs := by
  omega

/-- The collector run with an arbitrary accumulator is the accumulator
followed by the run from the empty accumulator. -/
theorem collect_acc (dif fdir rdir : int2) :
    ∀ (fuel : Nat) (ctr fe re fw rv : int2) (l : List int2),
      (walkLoopF collectF dif fdir rdir fuel ctr fe re fw rv l).1
        = l ++ (walkLoopF collectF dif fdir rdir fuel ctr fe re fw rv []).1 := by
  intro fuel
  induction fuel with
  | zero =>
    intro ctr fe re fw rv l
    simp [walkLoopF]
  | succ n ih =>
    intro ctr fe re fw rv l
    simp only [walkLoopF, collectF, List.nil_append]
    split_ifs with h1 h2
    · simp
    · rw [ih _ _ _ _ _ (l ++ [fw] ++ [rv]), ih _ _ _ _ _ ([fw] ++ [rv])]
      simp
    · simp

/-- Swapping the roles of the two cursors (directions, error terms, counter
components and start cells) yields a run visiting the same set of cells. -/
theorem collect_swap (dif fdir rdir : int2) :
    ∀ (fuel : Nat) (cx cy : ℤ) (fe re fw rv c : int2),
      (c ∈ (walkLoopF collectF dif rdir fdir fuel ⟨cy, cx⟩ re fe rv fw []).1
       ↔ c ∈ (walkLoopF collectF dif fdir rdir fuel ⟨cx, cy⟩ fe re fw rv []).1) := by
  intro fuel
  induction fuel with
  | zero =>
    intro cx cy fe re fw rv c
    simp [walkLoopF]
  | succ n ih =>
    intro cx cy fe re fw rv c
    simp only [walkLoopF, collectF, List.nil_append]
    by_cases h1 : 0 < cx ∧ 0 < cy
    · rw [if_pos (show (0 < (int2.mk cy cx).x ∧ 0 < (int2.mk cy cx).y) from ⟨h1.2, h1.1⟩),
          if_pos (show (0 < (int2.mk cx cy).x ∧ 0 < (int2.mk cx cy).y) from h1)]
      simp only [natAbsSubComm rv.x fw.x, natAbsSubComm rv.y fw.y]
      by_cases h2 : (fw.x - rv.x).natAbs ≤ 1 ∧ (fw.y - rv.y).natAbs ≤ 1
      · rw [if_pos h2, if_pos h2]
        simp [or_comm]
      · rw [if_neg h2, if_neg h2]
        simp only [if_true]
        rw [collect_acc _ _ _ _ _ _ _ _ _ ([rv] ++ [fw]),
            collect_acc _ _ _ _ _ _ _ _ _ ([fw] ++ [rv])]
        simp only [List.mem_append]
        rw [ih]
        simp [or_comm]
    · rw [if_neg (fun hcon => h1 ⟨hcon.2, hcon.1⟩), if_neg h1]

/-- C1 amended: at the level of the derived grid blocks, the bidirectional
walk visits the same set of cells from A-block to B-block as from B-block to
A-block. -/
theorem walk_visit_symm (a b c : int2) :
    c ∈ visitedCells a b ↔ c ∈ visitedCells b a := by
  simp only [visitedCells, walkPath]
  rw [natAbsSubComm a.x b.x, natAbsSubComm a.y b.y]
  exact (collect_swap _ _ _ _ _ _ _ _ a b c).symm

/-- C1 counterexample: from world position (0,0,0) to (8,0,0) the walk
visits only cell (0,0) (the end position on the boundary is biased back into
cell 0), while the reverse walk visits cells (1,0) and (0,0): the visited
cell sets differ, so the set-equivalence claim fails at the world-position
level. -/
theorem rawSearch_visit_asym :
    rawSearchVisitedCells ⟨0, 0, 0⟩ ⟨8, 0, 0⟩ = [⟨0, 0⟩, ⟨0, 0⟩]
    ∧ rawSearchVisitedCells ⟨8, 0, 0⟩ ⟨0, 0, 0⟩ = [⟨1, 0⟩, ⟨0, 0⟩]
    ∧ int2.mk 1 0 ∈ rawSearchVisitedCells ⟨8, 0, 0⟩ ⟨0, 0, 0⟩
    ∧ int2.mk 1 0 ∉ rawSearchVisitedCells ⟨0, 0, 0⟩ ⟨8, 0, 0⟩ := by
  with_unfolding_all decide

/-- A walk whose start and end blocks coincide runs one loop iteration: it
tests the shared cell twice (short-circuiting) and stops by adjacency. -/
theorem walkPath_self {σ : Type} (f : σ → int2 → σ × Bool) (c : int2) (s : σ) :
    walkPath f c c s = if (f s c).2 then f (f s c).1 c else f s c := by
  simp only [walkPath, sub_self, Int.natAbs_zero, Nat.cast_zero, add_zero, Int.toNat_zero,
    zero_add, sub_zero, walkLoopF, ind]
  norm_num
  rcases hfs : f s c with ⟨s1, b1⟩
  cases b1
  · simp
  · simp only [if_true]
    rcases hfs1 : f s1 c with ⟨s2, b2⟩
    cases b2 <;> simp

/-- The degenerate closed integer interval is the singleton list. -/
theorem intRange_self (a : ℤ) : intRange a a = [a] := by
  unfold intRange
  have h : (a + 1 - a).toNat = 1 := by omega
  rw [h]
  simp [List.range_succ]

/-- With coinciding endpoints neither axis gets a boundary bias, so both
blocks are the cell containing the position. -/
theorem rawSearchBlocks_self (pos : Q3) :
    rawSearchBlocks pos pos
      = (⟨qtrunc (pos.x / SQUARE_SIZE), qtrunc (pos.z / SQUARE_SIZE)⟩,
         ⟨qtrunc (pos.x / SQUARE_SIZE), qtrunc (pos.z / SQUARE_SIZE)⟩) := by
  simp [rawSearchBlocks]

/-- The terrain walk over a single in-bounds cell succeeds exactly when the
speed modifier of the cell exceeds the (zero) threshold. -/
theorem terr_walk_self (env : Env) (c : int2)
    (hin : ¬(c.x ≥ env.mapx ∨ c.x < 0 ∨ c.y ≥ env.mapy ∨ c.y < 0))
    (hthr : env.speedModThreshold = 0) :
    (walkPath (terrTest env) c c floatMax).2 = decide (env.posSpeedMod c.x c.y > 0) := by
  have ht : ∀ m : ℚ, terrTest env m c
      = (min m (env.posSpeedMod c.x c.y),
         decide (env.posSpeedMod c.x c.y > env.speedModThreshold)) := by
    intro m
    unfold terrTest
    rw [if_neg hin]
  rw [walkPath_self, ht, hthr]
  cases hb : decide (env.posSpeedMod c.x c.y > 0)
  · simp [hb]
  · simp [hb, ht, hthr]

/-- A single non-submersible object test with an interior footprint box:
the clamps are inactive and the verdict is the structure-bit test of one
blocking query at the position and height of the virtual collider. -/
theorem objTest_plain (env : Env) (md : MoveDefRec) (c : int2) (s : ObjSt)
    (hbx : 0 ≤ c.x - md.xsizeh) (hbx2 : c.x + md.xsizeh ≤ env.mapx - 1)
    (hbz : 0 ≤ c.y - md.zsizeh) (hbz2 : c.y + md.zsizeh ≤ env.mapy - 1) :
    objTest env md false false s c
      = ({ s with
            maxBlockBit := env.rangeBlocked (c.x - md.xsizeh) (c.x + md.xsizeh)
              (c.y - md.zsizeh) (c.y + md.zsizeh) s.vo.pos s.vo.height,
            objLog := s.objLog ++ [env.rangeBlocked (c.x - md.xsizeh) (c.x + md.xsizeh)
              (c.y - md.zsizeh) (c.y + md.zsizeh) s.vo.pos s.vo.height] },
         decide (env.rangeBlocked (c.x - md.xsizeh) (c.x + md.xsizeh)
            (c.y - md.zsizeh) (c.y + md.zsizeh) s.vo.pos s.vo.height &&& BLOCK_STRUCTURE = 0)) := by
  unfold objTest
  simp only [Bool.false_eq_true, if_false, mul_one]
  rw [max_eq_left hbx, max_eq_left hbz, min_eq_left hbx2, min_eq_left hbz2]

/-- The object walk over a single cell for a non-submersible collider is the
structure-bit test of the blocking query there. -/
theorem obj_walk_self (env : Env) (md : MoveDefRec) (c : int2)
    (hbx : 0 ≤ c.x - md.xsizeh) (hbx2 : c.x + md.xsizeh ≤ env.mapx - 1)
    (hbz : 0 ≤ c.y - md.zsizeh) (hbz2 : c.y + md.zsizeh ≤ env.mapy - 1) (s0 : ObjSt) :
    (walkPath (objTest env md false false) c c s0).2
      = decide (env.rangeBlocked (c.x - md.xsizeh) (c.x + md.xsizeh)
          (c.y - md.zsizeh) (c.y + md.zsizeh) s0.vo.pos s0.vo.height &&& BLOCK_STRUCTURE = 0) := by
  rw [walkPath_self, objTest_plain env md c s0 hbx hbx2 hbz hbz2]
  cases hb : decide (env.rangeBlocked (c.x - md.xsizeh) (c.x + md.xsizeh)
      (c.y - md.zsizeh) (c.y + md.zsizeh) s0.vo.pos s0.vo.height &&& BLOCK_STRUCTURE = 0)
  · simp [hb]
  · simp [hb, objTest_plain env md c _ hbx hbx2 hbz hbz2]

/-- The degenerate-bounds center-only range check evaluates the one cell
containing the position. -/
theorem tmsr_single (env : Env) (md : MoveDefRec) (col : Collider) (pos : Q3) :
    (TestMoveSquareRange env md col pos pos true false true).ret
      = decide (env.posSpeedMod (qtrunc (pos.x / SQUARE_SIZE)) (qtrunc (pos.z / SQUARE_SIZE)) > 0) := by
  unfold TestMoveSquareRange
  simp [intRange_self, List.flatMap_cons]

set_option linter.unnecessarySeqFocus false in
/-- C3 amended: when the start and end positions coincide (hence the start
and end cells), the raw-move threshold is zero, the footprint box around the
cell lies inside the map, and the collider is not submersible, the DoRawSearch
verdict equals the conjunction of the degenerate center-only
TestMoveSquareRange terrain check and TestMovePositionForObjects, each gated
by its test flag. -/
theorem rawSearch_single_cell_equiv (env : Env) (md : MoveDefRec) (col : Collider)
    (pos : Q3) (tt tob : Bool) (t0 : ℕ)
    (hthr : env.speedModThreshold = 0)
    (hb : 0 ≤ md.xsizeh ∧ 0 ≤ md.zsizeh
        ∧ md.xsizeh ≤ qtrunc (pos.x / SQUARE_SIZE)
        ∧ qtrunc (pos.x / SQUARE_SIZE) + md.xsizeh ≤ env.mapx - 1
        ∧ md.zsizeh ≤ qtrunc (pos.z / SQUARE_SIZE)
        ∧ qtrunc (pos.z / SQUARE_SIZE) + md.zsizeh ≤ env.mapy - 1)
    (hsub : (col.moveDef.isSubmarine
        || (col.moveDef.followGround && decide (col.moveDef.depth > col.height))) = false) :
    (DoRawSearchFull env md col pos pos tt tob false t0).ret
      = ((!tt || (TestMoveSquareRange env md col pos pos true false true).ret)
         && (!tob || TestMovePositionForObjects env md col pos)) := by
  obtain ⟨hxh, hzh, hx1, hx2, hz1, hz2⟩ := hb
  have hin : ¬(qtrunc (pos.x / SQUARE_SIZE) ≥ env.mapx
      ∨ qtrunc (pos.x / SQUARE_SIZE) < 0
      ∨ qtrunc (pos.z / SQUARE_SIZE) ≥ env.mapy
      ∨ qtrunc (pos.z / SQUARE_SIZE) < 0) := by
    push_neg
    refine ⟨by omega, by omega, by omega, by omega⟩
  have hbx : 0 ≤ qtrunc (pos.x / SQUARE_SIZE) - md.xsizeh := by omega
  have hbx2 : qtrunc (pos.x / SQUARE_SIZE) + md.xsizeh ≤ env.mapx - 1 := by omega
  have hbz : 0 ≤ qtrunc (pos.z / SQUARE_SIZE) - md.zsizeh := by omega
  have hbz2 : qtrunc (pos.z / SQUARE_SIZE) + md.zsizeh ≤ env.mapy - 1 := by omega
  have htm := tmsr_single env md col pos
  have htp : TestMovePositionForObjects env md col pos
      = decide (env.rangeBlocked (qtrunc (pos.x / SQUARE_SIZE) - md.xsizeh)
          (qtrunc (pos.x / SQUARE_SIZE) + md.xsizeh)
          (qtrunc (pos.z / SQUARE_SIZE) - md.zsizeh)
          (qtrunc (pos.z / SQUARE_SIZE) + md.zsizeh)
          col.pos col.height &&& BLOCK_STRUCTURE = 0) := rfl
  have hterr := terr_walk_self env
    ⟨qtrunc (pos.x / SQUARE_SIZE), qtrunc (pos.z / SQUARE_SIZE)⟩ hin hthr
  have hobj := obj_walk_self env md
    ⟨qtrunc (pos.x / SQUARE_SIZE), qtrunc (pos.z / SQUARE_SIZE)⟩ hbx hbx2 hbz hbz2
  simp only [DoRawSearchFull, rawSearchBlocks_self, hsub]
  cases tt <;> cases tob <;>
    simp [hterr, hobj, htm, htp] <;>
    split_ifs with hsm <;>
    simp [hsm, hobj]

/-- C3 counterexample: with a positive configured raw-move speed threshold
(1/2) and a terrain speed modifier of 1/4, DoRawSearch on a single cell
fails while both single-cell range checks pass, so the claimed equality does
not hold for every profile and position. -/
theorem rawSearch_single_cell_threshold_cex :
    (DoRawSearchFull envC3 mdZero colC3 posC3 posC3 true false false 0).ret = false
    ∧ (TestMoveSquareRange envC3 mdZero colC3 posC3 posC3 true false true).ret = true
    ∧ TestMovePositionForObjects envC3 mdZero colC3 posC3 = true := by
  with_unfolding_all decide

/-- C3 witness: the amended equivalence instantiated at the zero-threshold
environment, cell (1,1) of an 8-by-8 map, with both test flags set. -/
theorem rawSearch_single_cell_equiv_witness :
    envC3w.speedModThreshold = 0
    ∧ (DoRawSearchFull envC3w mdZero colC3 posC3 posC3 true true false 0).ret
        = ((!true || (TestMoveSquareRange envC3w mdZero colC3 posC3 posC3 true false true).ret)
           && (!true || TestMovePositionForObjects envC3w mdZero colC3 posC3)) :=
  ⟨rfl, rawSearch_single_cell_equiv envC3w mdZero colC3 posC3 true true 0 rfl
      (by with_unfolding_all decide) (by with_unfolding_all decide)⟩

/-- After any single object test, the aggregated bitmask equals the last
entry of the query log, whatever the incoming state was. -/
theorem objTest_last (env : Env) (md : MoveDefRec) (centerOnly isSub : Bool)
    (s : ObjSt) (c : int2) :
    ((objTest env md centerOnly isSub s c).1).maxBlockBit
      = ((objTest env md centerOnly isSub s c).1).objLog.getLastD BLOCK_NONE := by
  unfold objTest
  simp only [List.getLastD_concat]

/-- C4: the maxBlockBit output of DoRawSearch is the blocking bitmask of the
last query issued (each query overwrites the aggregate), not the bitwise OR
of all of them; under envC4 the query log is 1, 2, 2, 2, the output is 2 and
the OR would be 3. -/
theorem rawSearch_maxBlockBit_last :
    (∀ (env : Env) (md : MoveDefRec) (col : Collider) (sP eP : Q3)
        (tt tob co : Bool) (t0 : ℕ),
      (DoRawSearchFull env md col sP eP tt tob co t0).maxBlockBit
        = (DoRawSearchFull env md col sP eP tt tob co t0).objLog.getLastD BLOCK_NONE)
    ∧ (DoRawSearchFull envC4 mdZero colC4 ⟨0, 0, 0⟩ ⟨25, 0, 0⟩ false true false 0).objLog
        = [1, 2, 2, 2]
    ∧ (DoRawSearchFull envC4 mdZero colC4 ⟨0, 0, 0⟩ ⟨25, 0, 0⟩ false true false 0).maxBlockBit
        ≠ (DoRawSearchFull envC4 mdZero colC4 ⟨0, 0, 0⟩ ⟨25, 0, 0⟩ false true false 0).objLog.foldl
            (fun acc b => acc ||| b) 0 := by
  refine ⟨?_, by with_unfolding_all decide, by with_unfolding_all decide⟩
  intro env md col sP eP tt tob co t0
  simp only [DoRawSearchFull]
  split
  · split
    · refine walkPath_inv (fun s : ObjSt => s.maxBlockBit = s.objLog.getLastD BLOCK_NONE) _
        (fun s c _ => objTest_last env md co _ s c) _ _ _ ?_
      rfl
    · rfl
  · split
    · refine walkPath_inv (fun s : ObjSt => s.maxBlockBit = s.objLog.getLastD BLOCK_NONE) _
        (fun s c _ => objTest_last env md co _ s c) _ _ _ ?_
      rfl
    · rfl

end Spring
